import Mathlib

/-!
Verification of the browser-session lifecycle and captcha orchestration of
`browser_use/browser/stealth_session.py` (class `StealthBrowserSession`).

The Python class is shallowly embedded: the session object's mutable fields
become a `Session` record, the external world (playwright/camoufox engine,
psutil process table, captcha-solving backend) becomes an `Env` oracle record,
and each method becomes a Lean function from `Env` and `Session` to an updated
`Session`, a trace of externally visible effects, and an optional Python
exception.  Opaque browser objects (pages, contexts, browsers, process ids)
are represented by natural-number handles whose properties are read off the
`Env` oracle.
-/

namespace StealthSession

/-- Python exception classes that the embedded code can raise or observe.
`other n` stands for any further engine/backend exception type. -/
inductive PyErr where
  | assertionError
  | connectionError
  | attributeError
  | timeoutError
  | other (code : Nat)
  deriving DecidableEq, Repr

/-- Outcome of `psutil.Process(pid).terminate()`: delivered, raised
`NoSuchProcess`, or raised some other exception. -/
inductive TermOutcome where
  | ok
  | noSuchProcess
  | failed
  deriving DecidableEq, Repr

/-- Externally visible actions performed by the session, recorded as a trace.
`termSignal` is recorded only when a termination signal is actually delivered
to the process; `termAttempt` records every `terminate()` call. -/
inductive Effect where
  | prepareProfile
  | detectDisplay
  | setupPlaywrightLib
  | connectWss
  | launchBrowser
  | newContext (b : Nat)
  | closeConn (h : Nat)
  | termAttempt (pid : Nat)
  | termSignal (pid : Nat)
  | logTermError (pid : Nat)
  | superNavigate (url : Nat)
  | superRefresh
  | solveCall (p : Nat)
  deriving DecidableEq, Repr

/-- The mutable state of a `StealthBrowserSession` object.
`inited` models the Python attribute `self.initialized`; `keep_alive` models
`self.browser_profile.keep_alive`; `captcha_solver` holds the page handle the
solver is currently bound to (`CaptchaSolver(page=...)` / `solver.page = ...`). -/
structure Session where
  inited : Bool := false
  playwright_set : Bool := false
  browser : Option Nat := none
  browser_context : Option Nat := none
  agent_current_page : Option Nat := none
  browser_pid : Option Nat := none
  keep_alive : Bool := false
  wss_url : Option Nat := none
  captcha_solver : Option Nat := none
  auto_solve_captchas : Bool := true
  deriving DecidableEq, Repr

/-- The oracle for everything outside the session object: engine handles and
their liveness, launch results, the OS process table diff, and the captcha
backend.  Failable collaborator calls are `Option PyErr` (the injected
exception) or `PyErr ⊕ result`. -/
structure Env where
  /-- `page.context` for a page handle (always present in playwright). -/
  pageContext : Nat → Nat := fun _ => 0
  /-- whether reading `context.pages` succeeds (context not closed). -/
  ctxAccessOk : Nat → Bool := fun _ => true
  /-- `context.browser` (may be `None`, e.g. persistent contexts). -/
  ctxBrowser : Nat → Option Nat := fun _ => none
  /-- `browser.is_connected()`. -/
  browserConnected : Nat → Bool := fun _ => true
  prepareErr : Option PyErr := none
  displayErr : Option PyErr := none
  /-- result of `playwright_async.firefox.connect(wss_url, ...)`. -/
  wssConnect : PyErr ⊕ Nat := Sum.inl (PyErr.other 0)
  /-- exception from `self.playwright.start()` during local launch. -/
  launchStartErr : Option PyErr := none
  /-- `self.playwright.browser` after a successful `start()` (may be `None`). -/
  launchedBrowser : Option Nat := none
  /-- `browser.contexts` for a browser handle. -/
  browserContexts : Nat → List Nat := fun _ => []
  /-- result of `browser.new_context(...)`. -/
  newContextResult : Nat → PyErr ⊕ Nat := fun _ => Sum.inl (PyErr.other 0)
  /-- child pids that appear in the process tree because of the launch. -/
  spawnedPids : List Nat := []
  /-- the filter at line 290: not a Helper process and status is running. -/
  procFilterOk : Nat → Bool := fun _ => true
  addInitScriptErr : Option PyErr := none
  loadCookiesErr : Option PyErr := none
  viewportErr : Option PyErr := none
  listenerErr : Option PyErr := none
  /-- `page.is_closed()`. -/
  pageClosed : Nat → Bool := fun _ => false
  /-- exception from the `CaptchaSolver(...)` constructor. -/
  solverCtorErr : Option PyErr := none
  /-- result of `(browser_context or browser).close()` in `stop()`. -/
  closeResult : Nat → Option PyErr := fun _ => none
  /-- outcome of `psutil.Process(pid).terminate()`. -/
  terminateOutcome : Nat → TermOutcome := fun _ => TermOutcome.ok
  /-- exception from the parent class navigation (`super().navigate/refresh`). -/
  superNavigateErr : Option PyErr := none
  /-- result of `captcha_solver.detect_and_solve_captchas(timeout)`. -/
  solveResult : Nat → PyErr ⊕ Bool := fun _ => Sum.inr false
  /-- result of `captcha_solver.wait_for_captcha_resolution(timeout)`. -/
  waitResult : Nat → PyErr ⊕ Bool := fun _ => Sum.inr false

/-- Result of one stateful step: effect trace, post-state, optional raised
exception (the post-state is the object state at raise time, as in Python). -/
abbrev StepR := List Effect × Session × Option PyErr

/-- Sequencing of steps: a raised exception short-circuits, effects append. -/
def andThen (r : StepR) (f : Session → StepR) : StepR :=
  match r with
  | (t, s, some e) => (t, s, some e)
  | (t, s, none) =>
    match f s with
    | (t2, s2, e2) => (t ++ t2, s2, e2)

/-- Modelled from the spec: `BrowserSession.is_connected` (base class
`browser_use/browser/session.py`, not under src/) — "the underlying browser
connection is still live": the current context is reachable and its browser,
when it has one, is still connected. -/
def is_connected (env : Env) (s : Session) : Bool :=
  match s.browser_context with
  | some c =>
    env.ctxAccessOk c &&
      (match env.ctxBrowser c with
       | some b => env.browserConnected b
       | none => true)
  | none => false

/-- Modelled from the spec: `BrowserSession._reset_connection_state` (base
class, not under src/) — clears the session's `initialized` marker so that
resolution starts from a fresh ConnectionHandle; the caller-supplied
browser/context/page handles stay available to the resolver (spec §4.1 feeds
them to the strategies). -/
def reset_connection_state (s : Session) : Session :=
  { s with inited := false }

/-- Modelled from the spec: `BrowserSession._set_browser_keep_alive` (base
class, not under src/) — the resolver "marks" the ownership/keep-alive policy
flag, i.e. assigns `browser_profile.keep_alive`. -/
def set_browser_keep_alive (s : Session) (v : Bool) : Session :=
  { s with keep_alive := v }

/-- Model of `StealthBrowserSession.setup_playwright` (lines 135-146): constructs the
AsyncCamoufox client object and stores it; raises nothing. -/
def setup_playwright (s : Session) : StepR :=
  ([Effect.setupPlaywrightLib], { s with playwright_set := true }, none)

/-- Model of `StealthBrowserSession.setup_browser_via_passed_objects` (lines 158-189):
reuse a caller-supplied page/context/browser, dropping candidates that fail
the liveness checks; if any handle survives, mark keep-alive (external,
not owned). All liveness exceptions are caught internally, so this is total. -/
def setup_browser_via_passed_objects (env : Env) (s : Session) : Session :=
  -- 1. a passed page's context takes priority over a passed context
  let ctx1 : Option Nat :=
    match s.agent_current_page with
    | some p => some (env.pageContext p)
    | none => s.browser_context
  -- 2. drop the context if it is closed or its browser is disconnected
  let ctx2 : Option Nat :=
    match ctx1 with
    | some c =>
      if env.ctxAccessOk c then
        match env.ctxBrowser c with
        | some b => if env.browserConnected b then some c else none
        | none => some c
      else none
    | none => none
  -- 3. drop a disconnected passed browser (and its own context with it)
  let b3 : Option Nat :=
    match s.browser with
    | some b => if env.browserConnected b then some b else none
    | none => none
  let ctx3 : Option Nat :=
    match s.browser with
    | some b =>
      if env.browserConnected b then ctx2
      else
        match ctx2 with
        | some c => if env.ctxBrowser c = some b then none else some c
        | none => none
    | none => ctx2
  -- 4. a surviving context's connected browser takes precedence
  let b4 : Option Nat :=
    match ctx3 with
    | some c =>
      match env.ctxBrowser c with
      | some bc => if env.browserConnected bc then some bc else b3
      | none => b3
    | none => b3
  let s1 := { s with browser := b4, browser_context := ctx3 }
  -- 5. connected to an existing browser: do not kill it at the end
  if b4.isSome || ctx3.isSome then set_browser_keep_alive s1 true else s1

/-- Model of `StealthBrowserSession.setup_browser_via_wss_url` (lines 203-217):
connect to a remote playwright server when a wss_url is configured and no
browser/context was found yet; mark keep-alive on success. -/
def setup_browser_via_wss_url (env : Env) (s : Session) : StepR :=
  if s.browser.isSome || s.browser_context.isSome then ([], s, none)
  else
    match s.wss_url with
    | none => ([], s, none)
    | some _ =>
      match env.wssConnect with
      | Sum.inl e => ([Effect.connectWss], s, some e)
      | Sum.inr b =>
        ([Effect.connectWss],
         set_browser_keep_alive { s with browser := some b } true, none)

/-- Model of `setup_new_browser_context`, lines 238-252: an existing browser without a
context reuses the browser's first context or creates a new one. -/
def snbc_existing (env : Env) (s : Session) : StepR :=
  match s.browser, s.browser_context with
  | some b, none =>
    match env.browserContexts b with
    | c :: _ => ([], { s with browser_context := some c }, none)
    | [] =>
      match env.newContextResult b with
      | Sum.inl e => ([Effect.newContext b], s, some e)
      | Sum.inr c =>
        ([Effect.newContext b], { s with browser_context := some c }, none)
  | _, _ => ([], s, none)

/-- Model of `setup_new_browser_context`, lines 254-283: when no browser exists yet,
start camoufox, take its browser object, and create a context when needed
(`self.browser.new_context` on a `None` browser raises `AttributeError`). -/
def snbc_launch (env : Env) (s1 : Session) : StepR :=
  match s1.browser with
  | some _ => ([], s1, none)
  | none =>
    match env.launchStartErr with
    | some e => ([Effect.launchBrowser], s1, some e)
    | none =>
      match s1.browser_context with
      | some _ =>
        ([Effect.launchBrowser],
         { s1 with playwright_set := true, browser := env.launchedBrowser },
         none)
      | none =>
        match env.launchedBrowser with
        | none =>
          ([Effect.launchBrowser],
           { s1 with playwright_set := true, browser := none },
           some PyErr.attributeError)
        | some b =>
          match env.newContextResult b with
          | Sum.inl e =>
            ([Effect.launchBrowser, Effect.newContext b],
             { s1 with playwright_set := true, browser := some b }, some e)
          | Sum.inr c =>
            ([Effect.launchBrowser, Effect.newContext b],
             { s1 with playwright_set := true, browser := some b,
                       browser_context := some c }, none)

/-- Model of `setup_new_browser_context`, lines 313-372: `assert self.browser_context`,
then `add_init_script` and `load_cookies_from_file`. -/
def snbc_assert_ctx (env : Env) (s4 : Session) : StepR :=
  match s4.browser_context with
  | some _ =>
    match env.addInitScriptErr with
    | some e => ([], s4, some e)
    | none =>
      match env.loadCookiesErr with
      | some e => ([], s4, some e)
      | none => ([], s4, none)
  | none => ([], s4, some PyErr.assertionError)

/-- Model of `setup_new_browser_context`, lines 285-302: diff the child-process table
(new camoufox processes appear exactly when this call launched) and, when a
new camoufox process is found and no pid is recorded yet, record it and mark
the connection owned (`_set_browser_keep_alive(False)`). -/
def snbc_record_pid (env : Env) (launched : Bool) (s3 : Session) : Session :=
  let newProcs := if launched then env.spawnedPids.filter env.procFilterOk else []
  match newProcs, s3.browser_pid with
  | p :: _, none =>
    set_browser_keep_alive { s3 with browser_pid := some p } false
  | _, _ => s3

/-- Model of `setup_new_browser_context`, lines 285-372: record a spawned pid, then
assert browser connectivity and run the context assertion and setup. -/
def snbc_finish (env : Env) (launched : Bool) (s3 : Session) : StepR :=
  match (snbc_record_pid env launched s3).browser with
  | some b =>
    if env.browserConnected b then
      snbc_assert_ctx env (snbc_record_pid env launched s3)
    else ([], snbc_record_pid env launched s3, some PyErr.assertionError)
  | none => snbc_assert_ctx env (snbc_record_pid env launched s3)

/-- Model of `StealthBrowserSession.setup_new_browser_context` (lines 231-372):
reuse or create a context in an existing browser, else launch camoufox
locally; then record a spawned pid and mark ownership, and run the final
assertions and context setup.  In this sequential model new child processes
appear exactly when this call performed the local launch. -/
def setup_new_browser_context (env : Env) (s : Session) : StepR :=
  andThen (andThen (snbc_existing env s) (snbc_launch env))
    (snbc_finish env s.browser.isNone)

/-- Model of `StealthBrowserSession._setup_captcha_solver` (lines 374-388): bind a
`CaptchaSolver` to the current page when one is open; every exception is
caught and logged, so this is total and never raises. -/
def setup_captcha_solver (env : Env) (s : Session) : Session :=
  match s.agent_current_page with
  | some p =>
    if env.pageClosed p then s
    else
      match env.solverCtorErr with
      | some _ => s
      | none => { s with captcha_solver := some p }
  | none => s

/-- Model of `browser_profile.prepare_user_data_dir()` (line 66, external call). -/
def prep_profile (env : Env) (s : Session) : StepR :=
  match env.prepareErr with
  | some e => ([Effect.prepareProfile], s, some e)
  | none => ([Effect.prepareProfile], s, none)

/-- Model of `browser_profile.detect_display_configuration()` (line 67). -/
def detect_display (env : Env) (s : Session) : StepR :=
  match env.displayErr with
  | some e => ([Effect.detectDisplay], s, some e)
  | none => ([Effect.detectDisplay], s, none)

/-- Model of `start`, lines 75-79: `assert self.browser_context`, then viewport setup
and current-page-change listeners. -/
def assert_and_listeners (env : Env) (s3 : Session) : StepR :=
  if s3.browser_context.isNone then ([], s3, some PyErr.assertionError)
  else
    match env.viewportErr with
    | some e => ([], s3, some e)
    | none =>
      match env.listenerErr with
      | some e => ([], s3, some e)
      | none => ([], s3, none)

/-- Model of `start`, lines 82-83: solver setup when auto-solving is enabled. -/
def solver_stage (env : Env) (s4 : Session) : StepR :=
  if s4.auto_solve_captchas then ([], setup_captcha_solver env s4, none)
  else ([], s4, none)

/-- The `try` body of `StealthBrowserSession.start` (lines 63-83): profile
preparation, display detection, the four-strategy connection resolution, the
context assertion, viewport and listener setup, and solver setup. -/
def start_body (env : Env) (s : Session) : StepR :=
  andThen
    (andThen
      (andThen
        (andThen
          (andThen
            (andThen
              (andThen (prep_profile env s) (detect_display env))
              setup_playwright)
            (fun s2 => ([], setup_browser_via_passed_objects env s2, none)))
          (setup_browser_via_wss_url env))
        (setup_new_browser_context env))
      (assert_and_listeners env))
    (solver_stage env)

/-- Model of `start`, lines 60-62: reset connection state, then eagerly set
`initialized = True`. -/
def start_fresh (s : Session) : Session :=
  { reset_connection_state s with inited := true }

/-- Model of `StealthBrowserSession.start` (lines 55-87): under the start lock, return
immediately when already initialized with a live connection; otherwise reset
connection state, set `initialized = True`, run the setup sequence, and on any
exception roll `initialized` back to `False` and re-raise. -/
def start (env : Env) (s : Session) : StepR :=
  if s.inited && is_connected env s then ([], s, none)
  else
    match start_body env (start_fresh s) with
    | (t, s1, some e) => (t, { s1 with inited := false }, some e)
    | (t, s1, none) => (t, s1, none)

/-- Model of `StealthBrowserSession.stop` (lines 89-118): clear `initialized`; if
keep-alive is set, return at once; otherwise close the context (or browser),
clearing the context handle only when the close succeeded, then terminate the
recorded pid, clearing it only when the signal was delivered; `NoSuchProcess`
is silently tolerated and other terminate failures are only logged.  `stop`
never raises.  It is split here into its two effectful stages.

`stop`, lines 97-107: close `(browser_context or browser)`, clearing the
context handle only when the close succeeded (a close failure is caught and
only logged). -/
def stop_close (env : Env) (s0 : Session) : List Effect × Session :=
  match s0.browser_context, s0.browser with
  | some c, _ =>
    match env.closeResult c with
    | none => ([Effect.closeConn c], { s0 with browser_context := none })
    | some _ => ([Effect.closeConn c], s0)
  | none, some b =>
    match env.closeResult b with
    | none => ([Effect.closeConn b], { s0 with browser_context := none })
    | some _ => ([Effect.closeConn b], s0)
  | none, none => ([], s0)

/-- Model of `stop`, lines 109-118: terminate the recorded browser pid; the pid is
cleared only after a delivered signal; `NoSuchProcess` passes silently and
any other failure is logged via `logTermError`. -/
def stop_term (env : Env) (s1 : Session) : List Effect × Session :=
  match s1.browser_pid with
  | none => ([], s1)
  | some pid =>
    match env.terminateOutcome pid with
    | TermOutcome.ok =>
      ([Effect.termAttempt pid, Effect.termSignal pid],
       { s1 with browser_pid := none })
    | TermOutcome.noSuchProcess => ([Effect.termAttempt pid], s1)
    | TermOutcome.failed =>
      ([Effect.termAttempt pid, Effect.logTermError pid], s1)

/-- Model of `StealthBrowserSession.stop` (lines 89-118): clear `initialized`; if
keep-alive is set, return at once; otherwise run the close stage and then the
terminate stage. -/
def stop (env : Env) (s : Session) : List Effect × Session :=
  let s0 := { s with inited := false }
  if s0.keep_alive then ([], s0)
  else
    match stop_close env s0 with
    | (t1, s1) =>
      match stop_term env s1 with
      | (t2, s2) => (t1 ++ t2, s2)

/-- A sequence of `stop()` calls, each observing its own environment. -/
def stopMany (envs : List Env) (s : Session) : List Effect × Session :=
  match envs with
  | [] => ([], s)
  | env :: rest =>
    match stop env s with
    | (t, s1) =>
      match stopMany rest s1 with
      | (t2, s2) => (t ++ t2, s2)

/-- Number of delivered termination signals in a trace. -/
def countSignal (t : List Effect) : Nat :=
  t.countP fun e => match e with | Effect.termSignal _ => true | _ => false

/-- Number of solving attempts submitted to the captcha backend in a trace. -/
def countSolve (t : List Effect) : Nat :=
  t.countP fun e => match e with | Effect.solveCall _ => true | _ => false

/-- Model of `StealthBrowserSession._handle_page_captchas` (lines 408-430): rebind the
solver to the current page (initializing it first when missing) and run one
detect-and-solve attempt; the whole body sits in `try/except Exception`, so
solver failures are logged and never raised. -/
def handle_page_captchas (env : Env) (s : Session) : List Effect × Session :=
  let s1 :=
    if s.captcha_solver.isNone || s.agent_current_page.isNone
    then setup_captcha_solver env s else s
  match s1.captcha_solver, s1.agent_current_page with
  | some _, some p =>
    let s2 := { s1 with captcha_solver := some p }
    -- await asyncio.sleep(1); then detect_and_solve_captchas(timeout=30)
    match env.solveResult p with
    | Sum.inl _ => ([Effect.solveCall p], s2)  -- caught and logged
    | Sum.inr _ => ([Effect.solveCall p], s2)
  | _, _ => ([], s1)

/-- Model of `StealthBrowserSession.navigate` (lines 390-397): run the parent class
navigation (failures propagate unchanged), then, when auto-solving is enabled
and a page is present, run the captcha handler (which never raises). -/
def navigate (env : Env) (url : Nat) (s : Session) : StepR :=
  match env.superNavigateErr with
  | some e => ([Effect.superNavigate url], s, some e)
  | none =>
    if s.auto_solve_captchas && s.agent_current_page.isSome then
      match handle_page_captchas env s with
      | (t, s1) => (Effect.superNavigate url :: t, s1, none)
    else ([Effect.superNavigate url], s, none)

/-- Model of `StealthBrowserSession.refresh` (lines 399-406): same shape as `navigate`. -/
def refresh (env : Env) (s : Session) : StepR :=
  match env.superNavigateErr with
  | some e => ([Effect.superRefresh], s, some e)
  | none =>
    if s.auto_solve_captchas && s.agent_current_page.isSome then
      match handle_page_captchas env s with
      | (t, s1) => (Effect.superRefresh :: t, s1, none)
    else ([Effect.superRefresh], s, none)

/-- Model of `StealthBrowserSession.solve_captchas_manually` (lines 432-457): returns
`False` when there is no current page, when no solver can be initialized, or
when the solver raises; the `try/except Exception` makes it total. -/
def solve_captchas_manually (env : Env) (s : Session) : Session × Bool :=
  match s.agent_current_page with
  | none => (s, false)
  | some p =>
    let s1 := if s.captcha_solver.isNone then setup_captcha_solver env s else s
    match s1.captcha_solver with
    | some _ =>
      let s2 := { s1 with captcha_solver := some p }
      match env.solveResult p with
      | Sum.inl _ => (s2, false)  -- exception caught, falls through to False
      | Sum.inr b => (s2, b)
    | none => (s1, false)

/-- Model of `StealthBrowserSession.wait_for_captcha_resolution` (lines 459-484):
same shape as `solve_captchas_manually` but polls detection only. -/
def wait_for_captcha_resolution (env : Env) (s : Session) : Session × Bool :=
  match s.agent_current_page with
  | none => (s, false)
  | some p =>
    let s1 := if s.captcha_solver.isNone then setup_captcha_solver env s else s
    match s1.captcha_solver with
    | some _ =>
      let s2 := { s1 with captcha_solver := some p }
      match env.waitResult p with
      | Sum.inl _ => (s2, false)
      | Sum.inr b => (s2, b)
    | none => (s1, false)

/-!  Interleaving model for concurrent `_handle_page_captchas` invocations.
The coroutine suspends at its `await` points: after the setup-and-rebind
prefix (at `asyncio.sleep(1)`), and after submitting the solve call (awaiting
`detect_and_solve_captchas`).  Each `TaskPC` value is the program counter of
one invocation parked at such a point. -/

/-- Program counter of one `_handle_page_captchas` invocation. -/
inductive TaskPC where
  | entry
  | slept
  | solving
  | finished
  deriving DecidableEq, Repr

/-- One atomic segment of `_handle_page_captchas` between await points,
acting on the shared session object. -/
def taskStep (env : Env) (pc : TaskPC) (s : Session) :
    TaskPC × Session × List Effect :=
  match pc with
  | TaskPC.entry =>
    -- setup/rebind prefix, then suspend at `await asyncio.sleep(1)`
    let s1 :=
      if s.captcha_solver.isNone || s.agent_current_page.isNone
      then setup_captcha_solver env s else s
    match s1.captcha_solver, s1.agent_current_page with
    | some _, some p => (TaskPC.slept, { s1 with captcha_solver := some p }, [])
    | _, _ => (TaskPC.finished, s1, [])
  | TaskPC.slept =>
    -- submit detect_and_solve_captchas and suspend awaiting its result
    match s.captcha_solver with
    | some p => (TaskPC.solving, s, [Effect.solveCall p])
    | none => (TaskPC.finished, s, [])
  | TaskPC.solving => (TaskPC.finished, s, [])
  | TaskPC.finished => (TaskPC.finished, s, [])

/-- Run two concurrent invocations under a schedule (`true` steps the first
task, `false` the second), collecting the effect trace. -/
def runTwo (env : Env) : List Bool → TaskPC × TaskPC × Session → List Effect
  | [], _ => []
  | pick :: rest, (pa, pb, s) =>
    if pick then
      match taskStep env pa s with
      | (pa1, s1, t) => t ++ runTwo env rest (pa1, pb, s1)
    else
      match taskStep env pb s with
      | (pb1, s1, t) => t ++ runTwo env rest (pa, pb1, s1)

/-- The session and environment of a READY session with a live connection. -/
def readyEnv : Env :=
  { ctxAccessOk := fun _ => true
    ctxBrowser := fun _ => some 2
    browserConnected := fun _ => true }

def readySession : Session :=
  { inited := true, browser := some 2, browser_context := some 5,
    agent_current_page := some 9 }

/-- A session attached to an externally supplied browser with keep-alive set. -/
def keepAliveSession : Session :=
  { inited := true, browser := some 2, browser_context := some 5,
    agent_current_page := some 9, browser_pid := some 77, keep_alive := true }

def keepAliveEnv : Env :=
  { ctxAccessOk := fun _ => true
    ctxBrowser := fun _ => some 2
    browserConnected := fun _ => true }

/-- A stopped session whose close succeeds, for the C5 counterexample. -/
def c5Env : Env := { closeResult := fun _ => none }

def c5Session : Session :=
  { inited := true, browser := some 7, browser_context := some 5,
    agent_current_page := some 3, keep_alive := false }

def c2Env : Env := { prepareErr := some (PyErr.other 3) }

/-- An environment whose listener setup fails after a clean local launch. -/
def c2bEnv : Env :=
  { launchedBrowser := some 4
    newContextResult := fun _ => Sum.inr 9
    listenerErr := some (PyErr.other 5) }

def c2Session : Session := {}

/-- A caller-supplied persistent context: `context.browser` is `None`, so the
launch branch of `setup_new_browser_context` still runs. -/
def c7xEnv : Env :=
  { ctxAccessOk := fun _ => true
    ctxBrowser := fun _ => none
    browserConnected := fun _ => true
    launchedBrowser := some 8
    spawnedPids := [33]
    procFilterOk := fun _ => true }

def c7xSession : Session := { browser_context := some 5 }

def c4Env : Env :=
  { closeResult := fun _ => none, terminateOutcome := fun _ => TermOutcome.ok }

def c4aEnv : Env :=
  { terminateOutcome := fun _ => TermOutcome.noSuchProcess }

def c4Session : Session :=
  { inited := true, browser := some 2, browser_context := some 5,
    browser_pid := some 42, keep_alive := false }

def c9Env : Env := {}

def c9Session : Session :=
  { agent_current_page := some 1, captcha_solver := some 1 }

def c7Env : Env := { browserContexts := fun _ => [5] }

def c7Session : Session :=
  { inited := true, browser := some 2, browser_context := some 5,
    keep_alive := true }

def c10Env : Env :=
  { solveResult := fun _ => Sum.inl (PyErr.other 7)
    waitResult := fun _ => Sum.inl (PyErr.other 8) }

def c10Session : Session :=
  { agent_current_page := some 1, captcha_solver := some 1 }

/-- The environment's own injected exceptions are not `ConnectionError`:
under this assumption any `ConnectionError` surfacing from `start` would have
to be constructed by the resolver itself. -/
def envNoConnErr (env : Env) : Prop :=
  env.prepareErr ≠ some PyErr.connectionError ∧
  env.displayErr ≠ some PyErr.connectionError ∧
  env.wssConnect ≠ Sum.inl PyErr.connectionError ∧
  env.launchStartErr ≠ some PyErr.connectionError ∧
  (∀ b, env.newContextResult b ≠ Sum.inl PyErr.connectionError) ∧
  env.addInitScriptErr ≠ some PyErr.connectionError ∧
  env.loadCookiesErr ≠ some PyErr.connectionError ∧
  env.viewportErr ≠ some PyErr.connectionError ∧
  env.listenerErr ≠ some PyErr.connectionError

def c6Env : Env :=
  { launchedBrowser := some 4
    newContextResult := fun _ => Sum.inl PyErr.timeoutError }

def c6Session : Session := {}

/-! ### Frame lemmas about `stop` -/

/-- The close stage touches no field but `browser_context`. -/
theorem stop_close_frame (env : Env) (s0 : Session) :
    (stop_close env s0).2.inited = s0.inited ∧
    (stop_close env s0).2.browser = s0.browser ∧
    (stop_close env s0).2.agent_current_page = s0.agent_current_page ∧
    (stop_close env s0).2.keep_alive = s0.keep_alive ∧
    (stop_close env s0).2.captcha_solver = s0.captcha_solver := by
  unfold stop_close
  repeat' split
  all_goals simp_all

/-- The close stage leaves the recorded pid unchanged. -/
theorem stop_close_pid (env : Env) (s0 : Session) :
    (stop_close env s0).2.browser_pid = s0.browser_pid := by
  unfold stop_close
  repeat' split
  all_goals simp_all

/-- The close stage delivers no termination signal. -/
theorem stop_close_signal (env : Env) (s0 : Session) :
    countSignal (stop_close env s0).1 = 0 := by
  unfold stop_close
  repeat' split
  all_goals simp [countSignal]

/-- The close stage emits neither termination signals nor terminate-error
logs. -/
theorem stop_close_no_term (env : Env) (s0 : Session) (pid : Nat) :
    Effect.termSignal pid ∉ (stop_close env s0).1 ∧
    Effect.logTermError pid ∉ (stop_close env s0).1 := by
  unfold stop_close
  repeat' split
  all_goals simp

/-- The terminate stage touches no field but `browser_pid`. -/
theorem stop_term_frame (env : Env) (s1 : Session) :
    (stop_term env s1).2.inited = s1.inited ∧
    (stop_term env s1).2.browser = s1.browser ∧
    (stop_term env s1).2.agent_current_page = s1.agent_current_page ∧
    (stop_term env s1).2.keep_alive = s1.keep_alive ∧
    (stop_term env s1).2.captcha_solver = s1.captcha_solver ∧
    (stop_term env s1).2.browser_context = s1.browser_context := by
  unfold stop_term
  repeat' split
  all_goals simp_all

/-- The terminate stage with no recorded pid is a no-op. -/
theorem stop_term_none (env : Env) (s1 : Session)
    (h : s1.browser_pid = none) : stop_term env s1 = ([], s1) := by
  simp [stop_term, h]

/-- The terminate stage on a live pid delivers the signal and clears it. -/
theorem stop_term_ok (env : Env) (s1 : Session) (pid : Nat)
    (hp : s1.browser_pid = some pid)
    (hok : env.terminateOutcome pid = TermOutcome.ok) :
    stop_term env s1 =
      ([Effect.termAttempt pid, Effect.termSignal pid],
       { s1 with browser_pid := none }) := by
  simp [stop_term, hp, hok]

/-- The terminate stage on an already-gone process only records the attempt. -/
theorem stop_term_nosuch (env : Env) (s1 : Session) (pid : Nat)
    (hp : s1.browser_pid = some pid)
    (hns : env.terminateOutcome pid = TermOutcome.noSuchProcess) :
    stop_term env s1 = ([Effect.termAttempt pid], s1) := by
  simp [stop_term, hp, hns]

/-- The terminate stage either keeps the pid and delivers no signal, or
delivers exactly one signal and clears the pid. -/
theorem stop_term_cases (env : Env) (s1 : Session) :
    (countSignal (stop_term env s1).1 = 0 ∧
      (stop_term env s1).2.browser_pid = s1.browser_pid) ∨
    (countSignal (stop_term env s1).1 = 1 ∧
      (stop_term env s1).2.browser_pid = none) := by
  unfold stop_term
  repeat' split
  · exact Or.inl ⟨by simp [countSignal], by simp⟩
  · exact Or.inr ⟨by simp [countSignal, List.countP_cons, List.countP_nil],
      by simp⟩
  · exact Or.inl ⟨by simp [countSignal, List.countP_cons, List.countP_nil],
      by simp⟩
  · exact Or.inl ⟨by simp [countSignal, List.countP_cons, List.countP_nil],
      by simp⟩

/-- Lemma: `stop` off the keep-alive path is the close stage then the terminate
stage. -/
theorem stop_eq_stages (env : Env) (s : Session) (h : s.keep_alive = false) :
    stop env s =
      ((stop_close env { s with inited := false }).1 ++
        (stop_term env (stop_close env { s with inited := false }).2).1,
       (stop_term env (stop_close env { s with inited := false }).2).2) := by
  simp only [stop]
  rw [if_neg (show ¬ ({ s with inited := false } : Session).keep_alive = true
    by simp [h])]

/-- Lemma: `stop` only ever clears `initialized`, `browser_context` and
`browser_pid`: every other field of the session survives unchanged. -/
theorem stop_frame (env : Env) (s : Session) :
    (stop env s).2.inited = false ∧
    (stop env s).2.browser = s.browser ∧
    (stop env s).2.agent_current_page = s.agent_current_page ∧
    (stop env s).2.keep_alive = s.keep_alive ∧
    (stop env s).2.captcha_solver = s.captcha_solver := by
  by_cases h : s.keep_alive
  · simp [stop, h]
  · have h' : s.keep_alive = false := by simpa using h
    rw [stop_eq_stages env s h']
    have hc := stop_close_frame env { s with inited := false }
    have ht := stop_term_frame env (stop_close env { s with inited := false }).2
    simp_all

/-! ### Claim theorems -/

/-- C1: a further `start()` on a session that is already initialized and whose
underlying connection is still live returns the very same session state,
performs no effect (no resolution or launch work), and raises nothing. -/
theorem start_idempotent_when_ready (env : Env) (s : Session)
    (hInit : s.inited = true) (hLive : is_connected env s = true) :
    start env s = ([], s, none) := by
  simp [start, hInit, hLive]

/-- C1 witness: a concrete READY session with a live connection on which
`start()` is observed to be a no-op. -/
theorem start_idempotent_when_ready_witness :
    readySession.inited = true ∧
    is_connected readyEnv readySession = true ∧
    start readyEnv readySession = ([], readySession, none) :=
  ⟨rfl, rfl, start_idempotent_when_ready readyEnv readySession rfl rfl⟩

/-- C3: with the keep-alive policy set, `stop()` performs no effect at all
(no context close, no termination signal) and only resets local state — the
`initialized` flag is cleared and every handle field is left untouched. -/
theorem stop_keep_alive_local_noop (env : Env) (s : Session)
    (hKeep : s.keep_alive = true) :
    stop env s = ([], { s with inited := false }) := by
  simp [stop, hKeep]

/-- C3 witness: a concrete externally attached keep-alive session on which
`stop()` emits no effects and only clears the initialized flag. -/
theorem stop_keep_alive_local_noop_witness :
    keepAliveSession.keep_alive = true ∧
    stop keepAliveEnv keepAliveSession =
      ([], { keepAliveSession with inited := false }) :=
  ⟨rfl, stop_keep_alive_local_noop keepAliveEnv keepAliveSession rfl⟩

/-- C5 counterexample: after `stop()` returns on a concrete session, the
browser handle and the active-page handle are still set, so not every handle
exposed by the session is cleared to null. -/
theorem stop_leaves_handles_uncleared :
    ¬ ((stop c5Env c5Session).2.browser = none ∧
       (stop c5Env c5Session).2.agent_current_page = none) := by
  decide

/-- C5 amended: after `stop()` returns, the `initialized` flag is cleared and,
when keep-alive is unset and the context close succeeds, the browser-context
handle is cleared to null; the browser handle and the active/foreground page
handle are left unchanged by `stop()`. -/
theorem stop_clears_context_handle_only (env : Env) (s : Session) :
    (stop env s).2.inited = false ∧
    (stop env s).2.browser = s.browser ∧
    (stop env s).2.agent_current_page = s.agent_current_page ∧
    (∀ c, s.keep_alive = false → s.browser_context = some c →
      env.closeResult c = none → (stop env s).2.browser_context = none) := by
  refine ⟨(stop_frame env s).1, (stop_frame env s).2.1,
    (stop_frame env s).2.2.1, ?_⟩
  intro c hka hbc hcr
  rw [stop_eq_stages env s hka]
  have hclose : (stop_close env { s with inited := false }).2.browser_context
      = none := by simp [stop_close, hbc, hcr]
  have ht := (stop_term_frame env
    (stop_close env { s with inited := false }).2).2.2.2.2.2
  simp [ht, hclose]

/-- C5 amended witness: the concrete stopped session evaluated through the
amended statement: context cleared, browser and page untouched. -/
theorem stop_clears_context_handle_only_witness :
    (stop c5Env c5Session).2.inited = false ∧
    (stop c5Env c5Session).2.browser = some 7 ∧
    (stop c5Env c5Session).2.agent_current_page = some 3 ∧
    (stop c5Env c5Session).2.browser_context = none :=
  ⟨(stop_clears_context_handle_only c5Env c5Session).1,
   ((stop_clears_context_handle_only c5Env c5Session).2.1).trans (by decide),
   ((stop_clears_context_handle_only c5Env c5Session).2.2.1).trans (by decide),
   (stop_clears_context_handle_only c5Env c5Session).2.2.2 5 rfl rfl rfl⟩

/-- Lemma: `start_body` raises an injected profile-preparation error unchanged. -/
theorem start_body_prepare_err (env : Env) (s : Session) (e : PyErr)
    (h : env.prepareErr = some e) : (start_body env s).2.2 = some e := by
  simp [start_body, prep_profile, andThen, h]

/-- Lemma: off the shortcut, `start` surfaces exactly the setup body's error. -/
theorem start_err_eq (env : Env) (s : Session)
    (hns : (s.inited && is_connected env s) = false) :
    (start env s).2.2 = (start_body env (start_fresh s)).2.2 := by
  unfold start
  rcases hb : start_body env (start_fresh s) with ⟨t, s1, err⟩
  cases err <;> simp [hns, hb]

/-- C2: whenever `start()` raises, the `initialized` flag has been rolled back
to `False` on the way out; and a failure injected into each setup step —
profile preparation, connection resolution (remote attach or local launch),
context creation, viewport setup, or listener setup — surfaces to the caller
as that same error. -/
theorem start_failure_rolls_back (env : Env) (s : Session) (e : PyErr)
    (hns : (s.inited && is_connected env s) = false) :
    ((start env s).2.2 = some e → (start env s).2.1.inited = false) ∧
    (env.prepareErr = some e → (start env s).2.2 = some e) ∧
    (env.prepareErr = none → env.displayErr = none →
      s.agent_current_page = none → s.browser_context = none →
      s.browser = none →
      (∀ w, s.wss_url = some w → env.wssConnect = Sum.inl e →
        (start env s).2.2 = some e) ∧
      (s.wss_url = none → env.launchStartErr = none →
        ∀ b, env.launchedBrowser = some b →
        (env.newContextResult b = Sum.inl e → (start env s).2.2 = some e) ∧
        (∀ c, env.newContextResult b = Sum.inr c →
          env.browserConnected b = true → env.addInitScriptErr = none →
          env.loadCookiesErr = none →
          (env.viewportErr = some e → (start env s).2.2 = some e) ∧
          (env.viewportErr = none → env.listenerErr = some e →
            (start env s).2.2 = some e)))) := by
  refine ⟨?_, ?_, ?_⟩
  · intro h
    unfold start at h ⊢
    rcases hb : start_body env (start_fresh s) with ⟨t, s1, err⟩
    cases err with
    | none => simp [hns, hb] at h
    | some e2 => simp [hns, hb]
  · intro hprep
    rw [start_err_eq env s hns]
    exact start_body_prepare_err env (start_fresh s) e hprep
  · intro hp hd hpage hctx hbr
    constructor
    · intro w hw hwss
      rw [start_err_eq env s hns]
      simp [start_body, andThen, prep_profile, detect_display,
        setup_playwright, setup_browser_via_passed_objects, start_fresh,
        reset_connection_state, setup_browser_via_wss_url,
        set_browser_keep_alive, hp, hd, hpage, hctx, hbr, hw, hwss]
    · intro hwn hls b hlb
      constructor
      · intro hnc
        rw [start_err_eq env s hns]
        simp [start_body, andThen, prep_profile, detect_display,
          setup_playwright, setup_browser_via_passed_objects, start_fresh,
          reset_connection_state, setup_browser_via_wss_url,
          setup_new_browser_context, snbc_existing, snbc_launch,
          set_browser_keep_alive, hp, hd, hpage, hctx, hbr, hwn, hls, hlb,
          hnc]
      · intro c hcr hconn hai hlc
        constructor
        · intro hv
          rw [start_err_eq env s hns]
          rcases hnp : env.spawnedPids.filter env.procFilterOk
            with _ | ⟨p, ps⟩ <;>
          rcases hbp : s.browser_pid with _ | pid <;>
          simp [start_body, andThen, prep_profile, detect_display,
            setup_playwright, setup_browser_via_passed_objects, start_fresh,
            reset_connection_state, setup_browser_via_wss_url,
            setup_new_browser_context, snbc_existing, snbc_launch,
            snbc_record_pid, snbc_finish, snbc_assert_ctx,
            assert_and_listeners, set_browser_keep_alive, hp, hd, hpage,
            hctx, hbr, hwn, hls, hlb, hcr, hconn, hai, hlc, hv, hnp, hbp]
        · intro hv hl
          rw [start_err_eq env s hns]
          rcases hnp : env.spawnedPids.filter env.procFilterOk
            with _ | ⟨p, ps⟩ <;>
          rcases hbp : s.browser_pid with _ | pid <;>
          simp [start_body, andThen, prep_profile, detect_display,
            setup_playwright, setup_browser_via_passed_objects, start_fresh,
            reset_connection_state, setup_browser_via_wss_url,
            setup_new_browser_context, snbc_existing, snbc_launch,
            snbc_record_pid, snbc_finish, snbc_assert_ctx,
            assert_and_listeners, set_browser_keep_alive, hp, hd, hpage,
            hctx, hbr, hwn, hls, hlb, hcr, hconn, hai, hlc, hv, hl, hnp, hbp]

/-- C2 witness: a fresh session whose profile preparation raises, and one
whose listener setup raises after a clean launch; in both cases `start()`
propagates that error and leaves the session uninitialized. -/
theorem start_failure_rolls_back_witness :
    (start c2Env c2Session).2.2 = some (PyErr.other 3) ∧
    (start c2Env c2Session).2.1.inited = false ∧
    (start c2bEnv c2Session).2.2 = some (PyErr.other 5) ∧
    (start c2bEnv c2Session).2.1.inited = false :=
  have hprep : (start c2Env c2Session).2.2 = some (PyErr.other 3) :=
    (start_failure_rolls_back c2Env c2Session (PyErr.other 3)
      (by decide)).2.1 rfl
  have hlst : (start c2bEnv c2Session).2.2 = some (PyErr.other 5) :=
    ((((start_failure_rolls_back c2bEnv c2Session (PyErr.other 5)
      (by decide)).2.2 rfl rfl rfl rfl rfl).2 rfl rfl 4 rfl).2 9 rfl rfl rfl
        rfl).2 rfl rfl
  ⟨hprep,
   (start_failure_rolls_back c2Env c2Session (PyErr.other 3)
     (by decide)).1 hprep,
   hlst,
   (start_failure_rolls_back c2bEnv c2Session (PyErr.other 5)
     (by decide)).1 hlst⟩

/-- Lemma: `countSignal` distributes over trace concatenation. -/
theorem countSignal_append (t1 t2 : List Effect) :
    countSignal (t1 ++ t2) = countSignal t1 + countSignal t2 :=
  List.countP_append _ _ _

/-- One `stop` either delivers no termination signal and leaves the recorded
pid as it was, or delivers exactly one signal and clears the pid. -/
theorem stop_signal_cases (env : Env) (s : Session) :
    (countSignal (stop env s).1 = 0 ∧
      (stop env s).2.browser_pid = s.browser_pid) ∨
    (countSignal (stop env s).1 = 1 ∧ (stop env s).2.browser_pid = none) := by
  by_cases h : s.keep_alive
  · exact Or.inl (by simp [stop, h, countSignal])
  · have h' : s.keep_alive = false := by simpa using h
    rw [stop_eq_stages env s h']
    have hcs := stop_close_signal env { s with inited := false }
    have hcp := stop_close_pid env { s with inited := false }
    rcases stop_term_cases env (stop_close env { s with inited := false }).2
      with ⟨hz, hp⟩ | ⟨ho, hp⟩
    · exact Or.inl ⟨by simp [countSignal_append, hcs, hz],
        by simp [hp, hcp]⟩
    · exact Or.inr ⟨by simp [countSignal_append, hcs, ho], hp⟩

/-- With no recorded pid, `stop` delivers no signal and records none. -/
theorem stop_no_pid_no_signal (env : Env) (s : Session)
    (h : s.browser_pid = none) :
    countSignal (stop env s).1 = 0 ∧ (stop env s).2.browser_pid = none := by
  by_cases hk : s.keep_alive
  · simp [stop, hk, countSignal, h]
  · have hk' : s.keep_alive = false := by simpa using hk
    rw [stop_eq_stages env s hk']
    have hcp := stop_close_pid env { s with inited := false }
    have hpid1 : (stop_close env { s with inited := false }).2.browser_pid
        = none := by rw [hcp]; simpa using h
    rw [stop_term_none env _ hpid1]
    have h0 := stop_close_signal env { s with inited := false }
    constructor
    · rw [countSignal_append, h0]
      simp [countSignal]
    · exact hpid1

/-- Once the pid is cleared, arbitrarily many further `stop` calls deliver no
termination signal. -/
theorem stopMany_pid_none (envs : List Env) (s : Session)
    (h : s.browser_pid = none) :
    countSignal (stopMany envs s).1 = 0 ∧
    (stopMany envs s).2.browser_pid = none := by
  induction envs generalizing s with
  | nil => simpa [stopMany, countSignal] using h
  | cons env rest ih =>
    rcases hs : stop env s with ⟨t, s1⟩
    rcases hm : stopMany rest s1 with ⟨t2, s2⟩
    have hstop := stop_no_pid_no_signal env s h
    rw [hs] at hstop
    have hrest := ih s1 (by simpa using hstop.2)
    rw [hm] at hrest
    have h1 : countSignal t = 0 := by simpa using hstop.1
    have h2 : countSignal t2 = 0 := by simpa using hrest.1
    constructor
    · simp [stopMany, hs, hm, countSignal_append, h1, h2]
    · simpa [stopMany, hs, hm] using hrest.2

/-- Across any sequence of `stop` calls, at most one termination signal is
ever delivered. -/
theorem stopMany_signal_le_one (envs : List Env) (s : Session) :
    countSignal (stopMany envs s).1 ≤ 1 := by
  induction envs generalizing s with
  | nil => simp [stopMany, countSignal]
  | cons env rest ih =>
    rcases hs : stop env s with ⟨t, s1⟩
    rcases hm : stopMany rest s1 with ⟨t2, s2⟩
    have hcases := stop_signal_cases env s
    rw [hs] at hcases
    simp only [stopMany, hs, hm, countSignal_append]
    rcases hcases with ⟨h0, _⟩ | ⟨h1, hp⟩
    · have hr := ih s1
      rw [hm] at hr
      simp at h0 hr
      omega
    · have hr := (stopMany_pid_none rest s1 (by simpa using hp)).1
      rw [hm] at hr
      simp at h1 hr
      omega

/-- With a recorded pid and a deliverable process, `stop` delivers exactly one
signal and clears the pid. -/
theorem stop_ok_delivers (env : Env) (s : Session) (pid : Nat)
    (hka : s.keep_alive = false) (hpid : s.browser_pid = some pid)
    (hok : env.terminateOutcome pid = TermOutcome.ok) :
    countSignal (stop env s).1 = 1 ∧ (stop env s).2.browser_pid = none := by
  rw [stop_eq_stages env s hka]
  have hcp := stop_close_pid env { s with inited := false }
  have hpid1 : (stop_close env { s with inited := false }).2.browser_pid
      = some pid := by rw [hcp]; simpa using hpid
  rw [stop_term_ok env _ pid hpid1 hok]
  have h0 := stop_close_signal env { s with inited := false }
  constructor
  · rw [countSignal_append, h0]
    simp [countSignal, List.countP_cons, List.countP_nil]
  · rfl

/-- A `NoSuchProcess` outcome delivers no signal and logs no terminate error:
the "process already gone" case is silently treated as success. -/
theorem stop_nosuch_tolerated (env : Env) (s : Session) (pid : Nat)
    (hpid : s.browser_pid = some pid)
    (hns : env.terminateOutcome pid = TermOutcome.noSuchProcess) :
    Effect.termSignal pid ∉ (stop env s).1 ∧
    Effect.logTermError pid ∉ (stop env s).1 := by
  by_cases hk : s.keep_alive
  · simp [stop, hk]
  · have hk' : s.keep_alive = false := by simpa using hk
    rw [stop_eq_stages env s hk']
    have hcp := stop_close_pid env { s with inited := false }
    have hpid1 : (stop_close env { s with inited := false }).2.browser_pid
        = some pid := by rw [hcp]; simpa using hpid
    rw [stop_term_nosuch env _ pid hpid1 hns]
    have hnt := stop_close_no_term env { s with inited := false } pid
    exact ⟨by simp [hnt.1], by simp [hnt.2]⟩

/-- C4: for a locally launched session with a recorded pid, the termination
signal is delivered at most once across any sequence of `stop()` calls; a
successful delivery is exactly one signal and clears the pid so that every
further `stop()` delivers none; and a `NoSuchProcess` outcome is tolerated as
success — no signal counted and no terminate error logged. -/
theorem stop_terminates_pid_exactly_once (envs : List Env) (env : Env)
    (s : Session) (pid : Nat)
    (hka : s.keep_alive = false) (hpid : s.browser_pid = some pid) :
    countSignal (stopMany envs s).1 ≤ 1 ∧
    (env.terminateOutcome pid = TermOutcome.ok →
      countSignal (stop env s).1 = 1 ∧ (stop env s).2.browser_pid = none ∧
      ∀ envs2, countSignal (stopMany envs2 (stop env s).2).1 = 0) ∧
    (env.terminateOutcome pid = TermOutcome.noSuchProcess →
      Effect.termSignal pid ∉ (stop env s).1 ∧
      Effect.logTermError pid ∉ (stop env s).1) := by
  refine ⟨stopMany_signal_le_one envs s, ?_, fun hns =>
    stop_nosuch_tolerated env s pid hpid hns⟩
  intro hok
  have hdel := stop_ok_delivers env s pid hka hpid hok
  exact ⟨hdel.1, hdel.2, fun envs2 =>
    (stopMany_pid_none envs2 (stop env s).2 hdel.2).1⟩

/-- C4 witness: a concrete launched session stopped twice: one signal in
total, pid cleared, and the already-gone outcome leaves no error log. -/
theorem stop_terminates_pid_exactly_once_witness :
    countSignal (stopMany [c4Env, c4Env] c4Session).1 ≤ 1 ∧
    countSignal (stop c4Env c4Session).1 = 1 ∧
    (stop c4Env c4Session).2.browser_pid = none ∧
    Effect.termSignal 42 ∉ (stop c4aEnv c4Session).1 :=
  ⟨(stop_terminates_pid_exactly_once [c4Env, c4Env] c4Env c4Session 42
      rfl rfl).1,
   ((stop_terminates_pid_exactly_once [c4Env, c4Env] c4Env c4Session 42
      rfl rfl).2.1 rfl).1,
   ((stop_terminates_pid_exactly_once [c4Env, c4Env] c4Env c4Session 42
      rfl rfl).2.1 rfl).2.1,
   ((stop_terminates_pid_exactly_once [c4Env, c4Env] c4aEnv c4Session 42
      rfl rfl).2.2 rfl).1⟩

/-- C8: for every `navigate()` and `refresh()` call, the error surfaced to the
caller is exactly the parent navigation's error — an underlying navigation
failure propagates unchanged, and the post-navigation captcha handling step
(whatever `detect_and_solve_captchas` does, including raising) contributes no
exception at all. -/
theorem navigation_error_asymmetry (env : Env) (url : Nat) (s : Session) :
    (navigate env url s).2.2 = env.superNavigateErr ∧
    (refresh env s).2.2 = env.superNavigateErr := by
  rcases hh : handle_page_captchas env s with ⟨t, s1⟩
  cases h : env.superNavigateErr
  · constructor <;> (simp only [navigate, refresh, h, hh]; split <;> simp [hh])
  · constructor <;> simp [navigate, refresh, h]

/-- C9 counterexample: two concurrent `_handle_page_captchas` invocations on
the same page, the second one invoked while the first is still awaiting its
solve call (schedule: A runs to its solve await, then B runs), submit two
solving attempts to the backend — not at most one. -/
theorem concurrent_captcha_double_submission :
    ¬ (countSolve (runTwo c9Env [true, true, false, false]
        (TaskPC.entry, TaskPC.entry, c9Session)) ≤ 1) := by
  decide

/-- C9 amended: `_handle_page_captchas` holds no lock and keeps no per-page
task registry, so an invocation that arrives while a prior task for the same
page is still solving does not wait for it: each of the two concurrent
invocations submits its own attempt to the external backend (two calls
total). -/
theorem handle_captchas_no_dedup (env : Env) (s : Session) (p q : Nat)
    (hp : s.agent_current_page = some p) (hq : s.captcha_solver = some q) :
    countSolve (runTwo env [true, true, false, false]
      (TaskPC.entry, TaskPC.entry, s)) = 2 := by
  simp [runTwo, taskStep, hp, hq, countSolve, List.countP_cons,
    List.countP_nil]

/-- C9 amended witness: the concrete two-task schedule evaluated: exactly two
backend submissions. -/
theorem handle_captchas_no_dedup_witness :
    countSolve (runTwo c9Env [true, true, false, false]
      (TaskPC.entry, TaskPC.entry, c9Session)) = 2 :=
  handle_captchas_no_dedup c9Env c9Session 1 1 rfl rfl

/-- C10: both public captcha entry points are total and exception-free: with
no current page they return `False`; when no solver exists and none can be
initialized they return `False`; and when the underlying solver raises, the
exception is swallowed and they return `False`. -/
theorem captcha_entry_points_total (env : Env) (s : Session) :
    (s.agent_current_page = none →
      solve_captchas_manually env s = (s, false) ∧
      wait_for_captcha_resolution env s = (s, false)) ∧
    (s.captcha_solver = none →
      (setup_captcha_solver env s).captcha_solver = none →
      (solve_captchas_manually env s).2 = false ∧
      (wait_for_captcha_resolution env s).2 = false) ∧
    (∀ p e, s.agent_current_page = some p → env.solveResult p = Sum.inl e →
      (solve_captchas_manually env s).2 = false) ∧
    (∀ p e, s.agent_current_page = some p → env.waitResult p = Sum.inl e →
      (wait_for_captcha_resolution env s).2 = false) := by
  refine ⟨?_, ?_, ?_, ?_⟩
  · intro hp
    simp [solve_captchas_manually, wait_for_captcha_resolution, hp]
  · intro hcs hsetup
    cases hpg : s.agent_current_page with
    | none =>
      simp [solve_captchas_manually, wait_for_captcha_resolution, hpg]
    | some p =>
      constructor <;>
        simp [solve_captchas_manually, wait_for_captcha_resolution, hpg,
          hcs, hsetup]
  · intro p e hp he
    simp only [solve_captchas_manually, hp]
    split
    · simp [he]
    · simp
  · intro p e hp he
    simp only [wait_for_captcha_resolution, hp]
    split
    · simp [he]
    · simp

/-- Lemma: `snbc_existing` only ever fills `browser_context`: the keep-alive mark
and the browser handle survive. -/
theorem snbc_existing_frame (env : Env) (s : Session) :
    (snbc_existing env s).2.1.keep_alive = s.keep_alive ∧
    (snbc_existing env s).2.1.browser = s.browser := by
  unfold snbc_existing
  repeat' split
  all_goals simp_all

/-- Lemma: `snbc_launch` does nothing when a browser already exists. -/
theorem snbc_launch_skip (env : Env) (s1 : Session) (b : Nat)
    (hb : s1.browser = some b) : snbc_launch env s1 = ([], s1, none) := by
  simp [snbc_launch, hb]

/-- When this call did not launch, no child processes appear, so the
pid-recording branch is dead and the keep-alive mark survives the finishing
stage. -/
theorem snbc_assert_ctx_state (env : Env) (s4 : Session) :
    (snbc_assert_ctx env s4).2.1 = s4 := by
  unfold snbc_assert_ctx
  repeat' split
  all_goals rfl

/-- When this call did not launch, no new child processes exist, so the
pid-recording branch is dead. -/
theorem snbc_record_pid_reuse (env : Env) (s3 : Session) :
    snbc_record_pid env false s3 = s3 := by
  unfold snbc_record_pid
  cases h : s3.browser_pid <;> simp

theorem snbc_finish_reuse_keep_alive (env : Env) (s3 : Session) :
    (snbc_finish env false s3).2.1.keep_alive = s3.keep_alive := by
  unfold snbc_finish
  rw [snbc_record_pid_reuse]
  repeat' split
  all_goals simp [snbc_assert_ctx_state]

/-- With a reused browser present, `setup_new_browser_context` never touches
the keep-alive mark. -/
theorem snbc_reuse_keep_alive (env : Env) (s : Session) (b : Nat)
    (hb : s.browser = some b) :
    (setup_new_browser_context env s).2.1.keep_alive = s.keep_alive := by
  unfold setup_new_browser_context
  have hnone : s.browser.isNone = false := by simp [hb]
  rw [hnone]
  rcases hA : snbc_existing env s with ⟨tA, sA, eA⟩
  have hAfr := snbc_existing_frame env s
  rw [hA] at hAfr
  simp only at hAfr
  cases eA with
  | some e => simp [andThen, hA, hAfr.1]
  | none =>
    have hB := snbc_launch_skip env sA b (by rw [hAfr.2]; exact hb)
    rcases hC2 : snbc_finish env false sA with ⟨tC, sC, eC⟩
    have hC := snbc_finish_reuse_keep_alive env sA
    rw [hC2] at hC
    simp only at hC
    simp [andThen, hA, hB, hC2, hC, hAfr.1]

/-- Lemma: `setup_captcha_solver` only touches the solver binding. -/
theorem setup_solver_keep_alive (env : Env) (s : Session) :
    (setup_captcha_solver env s).keep_alive = s.keep_alive := by
  unfold setup_captcha_solver
  repeat' split
  all_goals simp

/-- The captcha handler never touches the keep-alive mark. -/
theorem handle_captchas_keep_alive (env : Env) (s : Session) :
    (handle_page_captchas env s).2.keep_alive = s.keep_alive := by
  unfold handle_page_captchas
  repeat' split
  all_goals simp_all [setup_solver_keep_alive]
  all_goals (repeat' split)
  all_goals simp [setup_solver_keep_alive]

/-- Lemma: `navigate` never touches the keep-alive mark. -/
theorem navigate_keep_alive (env : Env) (url : Nat) (s : Session) :
    (navigate env url s).2.1.keep_alive = s.keep_alive := by
  rcases hh : handle_page_captchas env s with ⟨t, s1⟩
  have hk := handle_captchas_keep_alive env s
  rw [hh] at hk
  simp only at hk
  cases h : env.superNavigateErr
  · simp only [navigate, h]
    split
    · simp [hh, hk]
    · rfl
  · simp [navigate, h]

/-- Lemma: `setup_browser_via_wss_url` returns at once when a browser is present. -/
theorem wss_skip_when_connected (env : Env) (s : Session) (b : Nat)
    (hb : s.browser = some b) :
    setup_browser_via_wss_url env s = ([], s, none) := by
  simp [setup_browser_via_wss_url, hb]

/-- C7 counterexample: a session given only a caller-supplied persistent
context (its `context.browser` is `None`) is marked keep-alive (not owned)
when the passed objects are reused, yet `start()` still enters the local
launch branch (line 255), succeeds while keeping the caller's context, and
the pid-recording branch (lines 297-302) re-marks the connection as owned:
the ownership mark flips for a connection established by reusing a
caller-supplied context. -/
theorem keep_alive_flips_for_context_only_reuse :
    (setup_browser_via_passed_objects c7xEnv c7xSession).keep_alive = true ∧
    (setup_browser_via_passed_objects c7xEnv c7xSession).browser_context
      = some 5 ∧
    (start c7xEnv c7xSession).2.2 = none ∧
    (start c7xEnv c7xSession).2.1.browser_context = some 5 ∧
    (start c7xEnv c7xSession).2.1.browser_pid = some 33 ∧
    ¬ (start c7xEnv c7xSession).2.1.keep_alive = true := by
  decide

/-- C7 amended: once a connection holds a reused (caller-supplied) *browser*
— supplied directly or reachable through the supplied context — the
keep-alive/ownership mark fixed by `setup_browser_via_passed_objects` never
flips for the lifetime of that connection: the remote-attach stage returns
untouched, the context stage cannot take the pid-recording owned branch,
and `stop`, `navigate` and the captcha handler never write the mark.  (The
exception forced by the counterexample is a caller-supplied context with no
attached browser, alongside which `start()` launches a local engine and
re-marks the connection as owned.) -/
theorem keep_alive_fixed_after_reuse (env : Env) (s : Session) (b : Nat)
    (hb : s.browser = some b) :
    setup_browser_via_wss_url env s = ([], s, none) ∧
    (setup_new_browser_context env s).2.1.keep_alive = s.keep_alive ∧
    (stop env s).2.keep_alive = s.keep_alive ∧
    (∀ url, (navigate env url s).2.1.keep_alive = s.keep_alive) ∧
    (handle_page_captchas env s).2.keep_alive = s.keep_alive :=
  ⟨wss_skip_when_connected env s b hb,
   snbc_reuse_keep_alive env s b hb,
   (stop_frame env s).2.2.2.1,
   fun url => navigate_keep_alive env url s,
   handle_captchas_keep_alive env s⟩

/-- C7 amended witness: a concrete externally attached session with a live
supplied browser (keep-alive marked at establishment) keeps the mark through
the context stage, `stop`, and the captcha handler. -/
theorem keep_alive_fixed_after_reuse_witness :
    (setup_new_browser_context c7Env c7Session).2.1.keep_alive = true ∧
    (stop c7Env c7Session).2.keep_alive = true ∧
    (handle_page_captchas c7Env c7Session).2.keep_alive = true :=
  ⟨((keep_alive_fixed_after_reuse c7Env c7Session 2 rfl).2.1).trans rfl,
   ((keep_alive_fixed_after_reuse c7Env c7Session 2 rfl).2.2.1).trans rfl,
   ((keep_alive_fixed_after_reuse c7Env c7Session 2 rfl).2.2.2.2).trans rfl⟩

/-- C10 witness: on a concrete session whose solver raises, both entry points
return `False` instead of propagating the exception. -/
theorem captcha_entry_points_total_witness :
    (solve_captchas_manually c10Env c10Session).2 = false ∧
    (wait_for_captcha_resolution c10Env c10Session).2 = false :=
  ⟨(captcha_entry_points_total c10Env c10Session).2.2.1 1 (PyErr.other 7)
      rfl rfl,
   (captcha_entry_points_total c10Env c10Session).2.2.2 1 (PyErr.other 8)
      rfl rfl⟩

/-- An exception out of a sequenced step came from one of its two parts. -/
theorem andThen_err (r : StepR) (f : Session → StepR) (e : PyErr)
    (h : (andThen r f).2.2 = some e) :
    r.2.2 = some e ∨ ∃ s1, (f s1).2.2 = some e := by
  rcases r with ⟨t, s, err⟩
  cases err with
  | some e2 => left; simpa [andThen] using h
  | none =>
    right
    refine ⟨s, ?_⟩
    rcases hf : f s with ⟨t2, s2, e2⟩
    simp only [andThen, hf] at h
    simpa using h

/-- Profile preparation raises only the injected preparation error. -/
theorem prep_profile_err (env : Env) (s : Session) (e : PyErr)
    (h : (prep_profile env s).2.2 = some e) : env.prepareErr = some e := by
  unfold prep_profile at h
  split at h <;> simp_all

/-- Display detection raises only the injected display error. -/
theorem detect_display_err (env : Env) (s : Session) (e : PyErr)
    (h : (detect_display env s).2.2 = some e) : env.displayErr = some e := by
  unfold detect_display at h
  split at h <;> simp_all

/-- The remote-attach stage raises only the connect call's own exception. -/
theorem wss_err (env : Env) (s : Session) (e : PyErr)
    (h : (setup_browser_via_wss_url env s).2.2 = some e) :
    env.wssConnect = Sum.inl e := by
  unfold setup_browser_via_wss_url at h
  repeat' split at h
  all_goals simp_all

/-- The existing-browser context stage raises only `new_context` failures. -/
theorem snbc_existing_err (env : Env) (s : Session) (e : PyErr)
    (h : (snbc_existing env s).2.2 = some e) :
    ∃ b, env.newContextResult b = Sum.inl e := by
  unfold snbc_existing at h
  repeat' split at h
  all_goals simp_all
  all_goals exact ⟨_, by assumption⟩

/-- The launch stage raises the engine-start error, an `AttributeError` from
`self.browser.new_context` on a `None` browser, or a `new_context` failure. -/
theorem snbc_launch_err (env : Env) (s1 : Session) (e : PyErr)
    (h : (snbc_launch env s1).2.2 = some e) :
    env.launchStartErr = some e ∨ e = PyErr.attributeError ∨
    ∃ b, env.newContextResult b = Sum.inl e := by
  unfold snbc_launch at h
  repeat' split at h
  all_goals simp_all
  all_goals exact Or.inr ⟨_, by assumption⟩

/-- The context assertion and setup raises only its own `AssertionError` or
the init script / cookie loading errors. -/
theorem snbc_assert_ctx_err (env : Env) (s4 : Session) (e : PyErr)
    (h : (snbc_assert_ctx env s4).2.2 = some e) :
    e = PyErr.assertionError ∨ env.addInitScriptErr = some e ∨
    env.loadCookiesErr = some e := by
  unfold snbc_assert_ctx at h
  repeat' split at h
  all_goals simp_all

/-- The finishing stage raises only its own `AssertionError` or the init
script / cookie loading errors. -/
theorem snbc_finish_err (env : Env) (L : Bool) (s3 : Session) (e : PyErr)
    (h : (snbc_finish env L s3).2.2 = some e) :
    e = PyErr.assertionError ∨ env.addInitScriptErr = some e ∨
    env.loadCookiesErr = some e := by
  unfold snbc_finish at h
  repeat' split at h
  · exact snbc_assert_ctx_err env _ e h
  · simp_all
  · exact snbc_assert_ctx_err env _ e h

/-- Errors of `setup_new_browser_context` are assertion or attribute errors
of the resolution itself or propagated collaborator exceptions. -/
theorem snbc_err (env : Env) (s : Session) (e : PyErr)
    (h : (setup_new_browser_context env s).2.2 = some e) :
    e = PyErr.assertionError ∨ e = PyErr.attributeError ∨
    env.launchStartErr = some e ∨
    (∃ b, env.newContextResult b = Sum.inl e) ∨
    env.addInitScriptErr = some e ∨ env.loadCookiesErr = some e := by
  unfold setup_new_browser_context at h
  rcases andThen_err _ _ _ h with h1 | ⟨s4, h4⟩
  · rcases andThen_err _ _ _ h1 with h2 | ⟨s2, h2⟩
    · rcases snbc_existing_err env s e h2 with ⟨b, hb⟩
      exact Or.inr (Or.inr (Or.inr (Or.inl ⟨b, hb⟩)))
    · rcases snbc_launch_err env s2 e h2 with hx | hx | hx
      · exact Or.inr (Or.inr (Or.inl hx))
      · exact Or.inr (Or.inl hx)
      · exact Or.inr (Or.inr (Or.inr (Or.inl hx)))
  · rcases snbc_finish_err env _ s4 e h4 with hx | hx | hx
    · exact Or.inl hx
    · exact Or.inr (Or.inr (Or.inr (Or.inr (Or.inl hx))))
    · exact Or.inr (Or.inr (Or.inr (Or.inr (Or.inr hx))))

/-- The assertion/viewport/listener stage raises only its own
`AssertionError` or the injected viewport/listener errors. -/
theorem assert_and_listeners_err (env : Env) (s3 : Session) (e : PyErr)
    (h : (assert_and_listeners env s3).2.2 = some e) :
    e = PyErr.assertionError ∨ env.viewportErr = some e ∨
    env.listenerErr = some e := by
  unfold assert_and_listeners at h
  repeat' split at h
  all_goals simp_all

/-- The solver stage never raises. -/
theorem solver_stage_no_err (env : Env) (s : Session) :
    (solver_stage env s).2.2 = none := by
  unfold solver_stage
  split <;> rfl

/-- Every exception out of `start`'s setup sequence is an assertion or
attribute error of the resolution itself, or a collaborator exception
propagated unchanged. -/
theorem start_body_err (env : Env) (s : Session) (e : PyErr)
    (h : (start_body env s).2.2 = some e) :
    env.prepareErr = some e ∨ env.displayErr = some e ∨
    env.wssConnect = Sum.inl e ∨ e = PyErr.assertionError ∨
    e = PyErr.attributeError ∨ env.launchStartErr = some e ∨
    (∃ b, env.newContextResult b = Sum.inl e) ∨
    env.addInitScriptErr = some e ∨ env.loadCookiesErr = some e ∨
    env.viewportErr = some e ∨ env.listenerErr = some e := by
  unfold start_body at h
  rcases andThen_err _ _ _ h with h7 | ⟨sS, hS⟩
  · rcases andThen_err _ _ _ h7 with h6 | ⟨sA, hA⟩
    · rcases andThen_err _ _ _ h6 with h5 | ⟨sB, hB⟩
      · rcases andThen_err _ _ _ h5 with h4 | ⟨sC, hC⟩
        · rcases andThen_err _ _ _ h4 with h3 | ⟨sD, hD⟩
          · rcases andThen_err _ _ _ h3 with h2 | ⟨sE, hE⟩
            · rcases andThen_err _ _ _ h2 with hpr | ⟨sF, hF⟩
              · exact Or.inl (prep_profile_err env s e hpr)
              · exact Or.inr (Or.inl (detect_display_err env sF e hF))
            · simp [setup_playwright] at hE
          · simp at hD
        · exact Or.inr (Or.inr (Or.inl (wss_err env sC e hC)))
      · rcases snbc_err env sB e hB with hx | hx | hx | hx | hx | hx
        · exact Or.inr (Or.inr (Or.inr (Or.inl hx)))
        · exact Or.inr (Or.inr (Or.inr (Or.inr (Or.inl hx))))
        · exact Or.inr (Or.inr (Or.inr (Or.inr (Or.inr (Or.inl hx)))))
        · exact Or.inr (Or.inr (Or.inr (Or.inr (Or.inr (Or.inr
            (Or.inl hx))))))
        · exact Or.inr (Or.inr (Or.inr (Or.inr (Or.inr (Or.inr (Or.inr
            (Or.inl hx)))))))
        · exact Or.inr (Or.inr (Or.inr (Or.inr (Or.inr (Or.inr (Or.inr
            (Or.inr (Or.inl hx))))))))
    · rcases assert_and_listeners_err env sA e hA with hx | hx | hx
      · exact Or.inr (Or.inr (Or.inr (Or.inl hx)))
      · exact Or.inr (Or.inr (Or.inr (Or.inr (Or.inr (Or.inr (Or.inr
          (Or.inr (Or.inr (Or.inl hx)))))))))
      · exact Or.inr (Or.inr (Or.inr (Or.inr (Or.inr (Or.inr (Or.inr
          (Or.inr (Or.inr (Or.inr hx)))))))))
  · rw [solver_stage_no_err env sS] at hS
    simp at hS

/-- An exception out of `start` is an exception of its setup body. -/
theorem start_err_from_body (env : Env) (s : Session) (e : PyErr)
    (h : (start env s).2.2 = some e) :
    (start_body env (start_fresh s)).2.2 = some e := by
  unfold start at h
  by_cases hc : (s.inited && is_connected env s) = true
  · simp [hc] at h
  · have hc' : (s.inited && is_connected env s) = false := by simpa using hc
    rcases hb : start_body env (start_fresh s) with ⟨t, s1, err⟩
    cases err with
    | none => simp [hc', hb] at h
    | some e2 =>
      simp [hc', hb] at h
      simp [h]

/-- C6 counterexample: with no supplied handles and no remote URL, a local
launch whose context creation fails with a `TimeoutError` makes `start()`
raise that `TimeoutError` — some other error type than the `ConnectionError`
the claim requires. -/
theorem resolution_failure_raises_timeout :
    (start c6Env c6Session).2.2 = some PyErr.timeoutError ∧
    PyErr.timeoutError ≠ PyErr.connectionError := by
  constructor
  · decide
  · decide

/-- C6 amended: when no strategy yields a browser+context pair, `start()`
propagates the underlying step's own exception unchanged or raises an
`AssertionError`/`AttributeError` from the resolution assertions; it never
constructs a `ConnectionError` of its own (a `ConnectionError` can surface
only if a collaborator itself raised one). -/
theorem resolution_failure_error_provenance (env : Env) (s : Session)
    (e : PyErr) (henv : envNoConnErr env)
    (h : (start env s).2.2 = some e) : e ≠ PyErr.connectionError := by
  obtain ⟨h1, h2, h3, h4, h5, h6, h7, h8, h9⟩ := henv
  intro he
  subst he
  rcases start_body_err env _ _ (start_err_from_body env s _ h) with
    hp | hp | hp | hp | hp | hp | ⟨b, hp⟩ | hp | hp | hp | hp
  · exact h1 hp
  · exact h2 hp
  · exact h3 hp
  · exact absurd hp (by decide)
  · exact absurd hp (by decide)
  · exact h4 hp
  · exact h5 b hp
  · exact h6 hp
  · exact h7 hp
  · exact h8 hp
  · exact h9 hp

/-- C6 amended witness: the concrete failing launch satisfies the
no-injected-`ConnectionError` assumption, and the error `start()` raises is
not a `ConnectionError`. -/
theorem resolution_failure_error_provenance_witness :
    envNoConnErr c6Env ∧ PyErr.timeoutError ≠ PyErr.connectionError :=
  have henv : envNoConnErr c6Env :=
    ⟨by decide, by decide, by decide, by decide, fun b => by simp [c6Env],
     by decide, by decide, by decide, by decide⟩
  ⟨henv, resolution_failure_error_provenance c6Env c6Session
    PyErr.timeoutError henv (by decide)⟩

end StealthSession
